import Mathlib

/-!
Verification development for the NeuralNetwork_TransferLearning repository.

The repository has two Python source files:

* FeatureExtractor/networks/resnet.py — a ResNet wrapper class: constructor
  with optional weight loading and transfer-learning freezing, a learning-rate
  scheduler, and a declarative residual-network topology.
* SVM/generate_report.py — a reporting script: confusion-matrix plotting,
  per-fold and aggregate metric tables rendered to HTML, and a metrics
  computation helper delegating to sklearn.

This file gives a shallow embedding of those functions and proves/refutes the
frozen claims about them.  Machine floats are modelled by exact rationals; the
single floating-point square root used by np.std is abstracted as an explicit
function parameter written sqrtA.
-/

namespace NNTL

/-! ### resnet.py: learning-rate scheduler and training callbacks -/

/-- Embedding of ResNet.scheduler (resnet.py lines 74-79):
returns 0.1 while epoch < 80, then 0.01 while epoch < 150, then 0.001. -/
def scheduler (epoch : ℕ) : ℚ :=
  if epoch < 80 then 0.1
  else if epoch < 150 then 0.01
  else 0.001

/-- Symbolic view of the Keras callbacks handed to model.fit in ResNet.train. -/
inductive Callback
  | learningRateScheduler (f : ℕ → ℚ)
  | tensorBoard (logDir : String)
  | modelCheckpoint (filename : String)
  | plotLearning

/-- Value of self.model_filename in the ResNet constructor (resnet.py line 21). -/
def model_filename : String := "FeatureExtractor/networks/pretrained_weights/resnet.h5"

/-- Value of self.log_filepath in the ResNet constructor (resnet.py line 31). -/
def log_filepath : String := "FeatureExtractor/networks/pretrained_weights/resnet/"

/-- Embedding of the callback list cbks built in ResNet.train (resnet.py lines
167-173): change_lr (a LearningRateScheduler wrapping self.scheduler), tb_cb,
checkpoint and the plotting callback. -/
def trainCallbacks : List Callback :=
  [Callback.learningRateScheduler scheduler,
   Callback.tensorBoard log_filepath,
   Callback.modelCheckpoint model_filename,
   Callback.plotLearning]

/-! ### resnet.py: constructor exception flow -/

/-- Python exception classes relevant to the repository. -/
inductive PyExc
  | importError
  | valueError
  | osError
  | keyError (key : String)
  | other (name : String)
deriving DecidableEq, Repr

/-- The exception classes named by the single except clause in the ResNet
constructor (resnet.py line 58): except (ImportError, ValueError, OSError). -/
def caughtByLoadHandler : PyExc → Bool
  | .importError => true
  | .valueError => true
  | .osError => true
  | _ => false

/-- Outcome of the weight-loading portion of the ResNet constructor. -/
inductive InitOutcome
  | loadedWeights (transferFrozen : Bool)
  | trainedFallback
  | builtOnly
deriving DecidableEq, Repr

/-- Embedding of the exception flow of ResNet.__init__ (resnet.py lines 43-61).
loadResult is none when self._model.load_weights succeeds and some e when it
raises the exception e.  When load_weights is false the try/except is never
entered, so no exception is caught; when it is true, a raised ImportError,
ValueError or OSError is caught and self.train() is invoked (trainedFallback),
and any other exception propagates out of the constructor. -/
def resnetInit (load_weights transfer_learning : Bool) (loadResult : Option PyExc) :
    Except PyExc InitOutcome :=
  if load_weights then
    match loadResult with
    | none => Except.ok (InitOutcome.loadedWeights transfer_learning)
    | some e =>
      if caughtByLoadHandler e then Except.ok InitOutcome.trainedFallback
      else Except.error e
  else Except.ok InitOutcome.builtOnly

/-! ### resnet.py: transfer-learning layer freezing -/

/-- Embedding of the loop for layer in self._model.layers[:-1]:
layer.trainable = False (resnet.py lines 51-52).  A model's layers are
represented by their trainable flags; every layer but the last is set
non-trainable and the last keeps its flag. -/
def freezeAllButLast : List Bool → List Bool
  | [] => []
  | [l] => [l]
  | _ :: l :: rest => false :: freezeAllButLast (l :: rest)

/-- Trainable flags of a model together with whether the constructor recompiled
the model after freezing. -/
structure ModelState where
  trainable : List Bool
  recompiled : Bool
deriving DecidableEq, Repr

/-- Effect of the ResNet constructor on the model's trainable flags (resnet.py
lines 43-57): only when weight loading succeeded and transfer_learning is true
are the flags of all layers but the last set to false and the model recompiled;
in every other case the flags are left untouched and no recompilation happens. -/
def initTransferEffect (loadSucceeded transfer_learning : Bool) (layers : List Bool) :
    ModelState :=
  if loadSucceeded && transfer_learning then
    { trainable := freezeAllButLast layers, recompiled := true }
  else
    { trainable := layers, recompiled := false }

/-! ### resnet.py: residual network topology

The Keras functional API creates one layer object per constructor call, in
source order; model.layers is that creation-ordered list.  The topology is
embedded as the ordered list of created layers.  Kernel initialisers and L2
regularisers are identical on every conv/dense layer and carry no topological
information, so they are not part of the layer descriptor. -/

/-- Descriptor of one Keras layer created while building the network. -/
inductive LayerDesc
  | inputLayer
  | conv2d (filters : ℕ) (kernel : ℕ × ℕ) (strides : ℕ × ℕ)
  | batchNorm
  | activationRelu
  | addL
  | globalAvgPool
  | dense (units : ℕ) (activation : String)
deriving DecidableEq, Repr

/-- Layers created by one call of residual_block (resnet.py lines 82-109), in
creation order: pre_bn, pre_relu, conv_1 (3x3, stride 2 iff increase), bn_1,
relu1, conv_2 (3x3, stride 1), the 1x1 stride-2 projection conv when increase,
and the add merge. -/
def residual_block_layers (out_channel : ℕ) (increase : Bool) : List LayerDesc :=
  let stride := if increase then (2, 2) else (1, 1)
  [LayerDesc.batchNorm, LayerDesc.activationRelu,
   LayerDesc.conv2d out_channel (3, 3) stride,
   LayerDesc.batchNorm, LayerDesc.activationRelu,
   LayerDesc.conv2d out_channel (3, 3) (1, 1)]
  ++ (if increase then [LayerDesc.conv2d out_channel (1, 1) (2, 2)] else [])
  ++ [LayerDesc.addL]

/-- Embedding of residual_network (resnet.py lines 81-141) as the ordered list
of layers it creates: the initial 16-filter 3x3 conv, stack_n plain blocks at
16 channels, a downsampling block then stack_n - 1 plain blocks at 32 channels
(for _ in range(1, stack_n) runs stack_n - 1 times), the same at 64 channels,
then batch norm, ReLU, global average pooling and the softmax dense head. -/
def residual_network_layers (classes_num stack_n : ℕ) : List LayerDesc :=
  [LayerDesc.conv2d 16 (3, 3) (1, 1)]
  ++ List.flatten (List.replicate stack_n (residual_block_layers 16 false))
  ++ residual_block_layers 32 true
  ++ List.flatten (List.replicate (stack_n - 1) (residual_block_layers 32 false))
  ++ residual_block_layers 64 true
  ++ List.flatten (List.replicate (stack_n - 1) (residual_block_layers 64 false))
  ++ [LayerDesc.batchNorm, LayerDesc.activationRelu, LayerDesc.globalAvgPool,
      LayerDesc.dense classes_num "softmax"]

/-- Layers of the full Keras Model built in the constructor: the Input call
creates an InputLayer ahead of the layers created by residual_network. -/
def resnetModelLayers (classes_num stack_n : ℕ) : List LayerDesc :=
  LayerDesc.inputLayer :: residual_network_layers classes_num stack_n

/-- A layer carrying connection weights in the conv/dense sense. -/
def isWeighted : LayerDesc → Bool
  | .conv2d _ _ _ => true
  | .dense _ _ => true
  | _ => false

/-- Number of conv/dense layers in a layer list. -/
def weightedLayerCount (ls : List LayerDesc) : ℕ := (ls.filter isWeighted).length

/-- A main-path weighted layer: a 3x3 convolution or the dense head.  The 1x1
stride-2 projection convolutions on the downsampling shortcuts are excluded. -/
def isMainPathWeighted : LayerDesc → Bool
  | .conv2d _ (3, 3) _ => true
  | .dense _ _ => true
  | _ => false

/-- Number of main-path weighted layers in a layer list. -/
def mainPathWeightedCount (ls : List LayerDesc) : ℕ :=
  (ls.filter isMainPathWeighted).length

/-- A residual-block merge layer. -/
def isAddMerge : LayerDesc → Bool
  | .addL => true
  | _ => false

/-- Number of residual blocks in a layer list, one add merge per block. -/
def addMergeCount (ls : List LayerDesc) : ℕ := (ls.filter isAddMerge).length

/-! ### generate_report.py: confusion-matrix plotting

Matrices are lists of rows of exact rationals.  Floating-point division by a
zero row sum (numpy produces NaN or infinity there) is embedded as the value
none: a normalized entry is some q exactly when its row sum is nonzero. -/

/-- Embedding of line 17 of generate_report.py,
cm.astype(float) / cm.sum(axis=1)[:, np.newaxis]: every row is divided
elementwise by its own sum, with no guard against a zero row sum. -/
def rowNormalize (cm : List (List ℚ)) : List (List (Option ℚ)) :=
  cm.map (fun row =>
    let s := row.sum
    row.map (fun x => if s = 0 then none else some (x / s)))

/-- The figure produced by plot_confusion_matrix: the plotted matrix, the
annotation format, the title and the axis decorations set on the plot. -/
structure Figure where
  matrix : List (List (Option ℚ))
  fmt : String
  title : String
  xlabel : String
  ylabel : String
  xticklabels : List String
  yticklabels : List String
deriving DecidableEq, Repr

/-- Embedding of plot_confusion_matrix (generate_report.py lines 11-28): when
normalize is true the matrix is row-normalized and annotated with format .2f,
otherwise it is plotted unchanged with integer format d; the heatmap uses the
given classes as tick labels, the given title, and the fixed axis labels. -/
def plot_confusion_matrix (cm : List (List ℚ)) (classes : List String)
    (normalize : Bool) (title : String) : Figure :=
  if normalize then
    { matrix := rowNormalize cm, fmt := ".2f", title := title,
      xlabel := "Predicted label", ylabel := "True label",
      xticklabels := classes, yticklabels := classes }
  else
    { matrix := cm.map (fun row => row.map some), fmt := "d", title := title,
      xlabel := "Predicted label", ylabel := "True label",
      xticklabels := classes, yticklabels := classes }

/-! ### generate_report.py: results dictionary and aggregate metrics -/

/-- Record stored under each fold key of the results dictionary. -/
structure FoldResult where
  confusion_matrix : List (List ℚ)
  accuracy : ℚ
  precision : ℚ
  «recall» : ℚ
  f1 : ℚ
  auc : ℚ
deriving DecidableEq, Repr

/-- A Python dict of fold results, embedded as an association list with
first-match lookup. -/
abbrev ResultsDict := List (String × FoldResult)

/-- Dictionary subscription results[k]; none models a KeyError being raised. -/
def dictGet (d : ResultsDict) (k : String) : Option FoldResult := List.lookup k d

/-- Embedding of np.mean over exact rationals: the sum divided by the length. -/
def np_mean (l : List ℚ) : ℚ := l.sum / l.length

/-- Embedding of the radicand of np.std with its default ddof = 0: the mean of
the squared deviations from the mean, with divisor the length of the list.
np.std itself is the floating-point square root of this value; that square
root is abstracted as the sqrtA parameter of the report pipeline. -/
def np_var (l : List ℚ) : ℚ := ((l.map (fun x => (x - np_mean l) ^ 2)).sum) / l.length

/-- The five per-fold values [results[fold_i][metric] for i in range(5)] read
by the overall-metrics loop (generate_report.py lines 158-164), for the metric
projected by f. -/
def metricVals (f : FoldResult → ℚ) (r0 r1 r2 r3 r4 : FoldResult) : List ℚ :=
  [f r0, f r1, f r2, f r3, f r4]

/-! ### generate_report.py: the %.4f filter and the rendered template -/

/-- Rounding of a rational to the nearest integer with ties to even, the
rounding Python applies when formatting a float with %.4f. -/
def roundHalfEven (q : ℚ) : ℤ :=
  let f := ⌊q⌋
  if q - f < 1 / 2 then f
  else if 1 / 2 < q - f then f + 1
  else if f % 2 = 0 then f else f + 1

/-- Left pad with zeros to four digits. -/
def pad4 (n : ℕ) : String :=
  String.mk (List.replicate (4 - (toString n).length) '0') ++ toString n

/-- Embedding of the jinja filter "%.4f"|format(q): the decimal rendering of q
rounded half-to-even at four decimal places. -/
def fmt4 (q : ℚ) : String :=
  let n := roundHalfEven (q * 10000)
  if n < 0 then "-" ++ toString ((-n) / 10000) ++ "." ++ pad4 (((-n) % 10000).toNat)
  else toString (n / 10000) ++ "." ++ pad4 ((n % 10000).toNat)

/-- Static template text from the start of html_template (generate_report.py
lines 62-92) up to the first interpolated value: document head, style block and
the header row of the Overall Performance table. -/
def tplHead : String :=
  "\n    <!DOCTYPE html>\n    <html>\n    <head>\n        <title>SVM Classification Results</title>\n        <style>\n            body \x7b font-family: Arial, sans-serif; margin: 20px; \x7d\n            .container \x7b max-width: 1200px; margin: 0 auto; \x7d\n            .metrics-table \x7b width: 100%; border-collapse: collapse; margin: 20px 0; \x7d\n            .metrics-table th, .metrics-table td \x7b border: 1px solid #ddd; padding: 8px; text-align: center; \x7d\n            .metrics-table th \x7b background-color: #f2f2f2; \x7d\n            .metrics-table tr:nth-child(even) \x7b background-color: #f9f9f9; \x7d\n            .confusion-matrix \x7b display: flex; flex-wrap: wrap; justify-content: space-around; \x7d\n            .matrix-container \x7b margin: 10px; text-align: center; \x7d\n            .matrix-container img \x7b max-width: 400px; \x7d\n            h1, h2 \x7b color: #333; \x7d\n            .summary \x7b background-color: #f8f9fa; padding: 15px; border-radius: 5px; margin: 20px 0; \x7d\n        </style>\n    </head>\n    <body>\n        <div class=\"container\">\n            <h1>SVM Classification Results</h1>\n\n            <div class=\"summary\">\n                <h2>Overall Performance</h2>\n                <table class=\"metrics-table\">\n                    <tr>\n                        <th>Metric</th>\n                        <th>Mean</th>\n                        <th>Standard Deviation</th>\n                    </tr>\n"

/-- One row of the Overall Performance table (template lines 93-97 and its four
sibling rows): the metric label, then its Mean and Standard Deviation cells,
each interpolated through the %.4f filter. -/
def overallRow (label : String) (meanv stdv : ℚ) : List String :=
  ["                    <tr>\n                        <td>" ++ label
     ++ "</td>\n                        <td>",
   fmt4 meanv,
   "</td>\n                        <td>",
   fmt4 stdv,
   "</td>\n                    </tr>\n"]

/-- Static template text between the Overall Performance table and the fold
rows (template lines 118-130): table close, Per-Fold Results heading and the
per-fold table header row. -/
def tplMid : String :=
  "                </table>\n            </div>\n\n            <h2>Per-Fold Results</h2>\n            <table class=\"metrics-table\">\n                <tr>\n                    <th>Fold</th>\n                    <th>Accuracy</th>\n                    <th>Precision</th>\n                    <th>Recall</th>\n                    <th>F1-Score</th>\n                    <th>AUC</th>\n                </tr>\n"

/-- One iteration of the jinja fold loop (template lines 131-140): the fold
number fold + 1 and the five metric cells of results[fold_i], each interpolated
through the %.4f filter. -/
def foldRow (fold : ℕ) (r : FoldResult) : List String :=
  ["                <tr>\n                    <td>" ++ toString (fold + 1)
     ++ "</td>\n                    <td>",
   fmt4 r.accuracy,
   "</td>\n                    <td>",
   fmt4 r.precision,
   "</td>\n                    <td>",
   fmt4 r.«recall»,
   "</td>\n                    <td>",
   fmt4 r.f1,
   "</td>\n                    <td>",
   fmt4 r.auc,
   "</td>\n                </tr>\n"]

/-- Static template text between the per-fold table and the confusion-matrix
gallery (template lines 141-144). -/
def tplMid2 : String :=
  "            </table>\n\n            <h2>Confusion Matrices</h2>\n            <div class=\"confusion-matrix\">\n"

/-- One iteration of the jinja matrix-gallery loop (template lines 145-151):
the heading and the two img tags referencing the PNG files of fold + 1. -/
def matrixDiv (fold : ℕ) : String :=
  "                <div class=\"matrix-container\">\n                    <h3>Fold "
  ++ toString (fold + 1)
  ++ "</h3>\n                    <img src=\"confusion_matrix_fold_"
  ++ toString (fold + 1)
  ++ ".png\" alt=\"Confusion Matrix Fold "
  ++ toString (fold + 1)
  ++ "\">\n                    <img src=\"confusion_matrix_norm_fold_"
  ++ toString (fold + 1)
  ++ ".png\" alt=\"Normalized Confusion Matrix Fold "
  ++ toString (fold + 1)
  ++ "\">\n                </div>\n"

/-- Static closing text of the template (lines 152-156). -/
def tplTail : String :=
  "            </div>\n        </div>\n    </body>\n    </html>\n    "

/-- The rendered template as the ordered list of text pieces the jinja engine
concatenates: static chunks interleaved with interpolated values.  The overall
rows interpolate overall_metrics.metric_mean = np.mean(values) and
overall_metrics.metric_std = np.std(values) (the floating-point square root of
np_var, abstracted as sqrtA) computed on lines 158-164; the fold loops are
unrolled over fold = 0..4. -/
def renderChunks (sqrtA : ℚ → ℚ) (r0 r1 r2 r3 r4 : FoldResult) : List String :=
  [tplHead]
  ++ overallRow "Accuracy"
       (np_mean (metricVals (fun r => r.accuracy) r0 r1 r2 r3 r4))
       (sqrtA (np_var (metricVals (fun r => r.accuracy) r0 r1 r2 r3 r4)))
  ++ overallRow "Precision"
       (np_mean (metricVals (fun r => r.precision) r0 r1 r2 r3 r4))
       (sqrtA (np_var (metricVals (fun r => r.precision) r0 r1 r2 r3 r4)))
  ++ overallRow "Recall"
       (np_mean (metricVals (fun r => r.«recall») r0 r1 r2 r3 r4))
       (sqrtA (np_var (metricVals (fun r => r.«recall») r0 r1 r2 r3 r4)))
  ++ overallRow "F1-Score"
       (np_mean (metricVals (fun r => r.f1) r0 r1 r2 r3 r4))
       (sqrtA (np_var (metricVals (fun r => r.f1) r0 r1 r2 r3 r4)))
  ++ overallRow "AUC"
       (np_mean (metricVals (fun r => r.auc) r0 r1 r2 r3 r4))
       (sqrtA (np_var (metricVals (fun r => r.auc) r0 r1 r2 r3 r4)))
  ++ [tplMid]
  ++ foldRow 0 r0 ++ foldRow 1 r1 ++ foldRow 2 r2 ++ foldRow 3 r3 ++ foldRow 4 r4
  ++ [tplMid2, matrixDiv 0, matrixDiv 1, matrixDiv 2, matrixDiv 3, matrixDiv 4,
      tplTail]

/-- Concatenation of the rendered chunks: the html_content string written to
the report file. -/
def joinChunks : List String → String
  | [] => ""
  | s :: rest => s ++ joinChunks rest

/-! ### generate_report.py: the report pipeline and its filesystem effects -/

/-- Content of a file written by generate_html_report: a saved matplotlib
figure or the rendered HTML document (kept as its chunk list; the file text is
joinChunks of it). -/
inductive FileContent
  | png (fig : Figure)
  | htmlDoc (chunks : List String)
deriving DecidableEq, Repr

/-- One file written into output_dir. -/
structure FileWrite where
  path : String
  content : FileContent
deriving DecidableEq, Repr

/-- Writes performed by generate_html_report together with the exception, if
any, that aborted it; writes lists the files already on disk at that point. -/
structure RunResult where
  writes : List FileWrite
  raised : Option PyExc
deriving DecidableEq, Repr

/-- The two savefig calls of one iteration of the fold loop (generate_report.py
lines 42-59): the raw confusion matrix of results[fold_fold] saved as
confusion_matrix_fold_{fold+1}.png, then the row-normalized one saved as
confusion_matrix_norm_fold_{fold+1}.png, both plotted with class labels
Benign/Malware and the fold's title. -/
def foldPngWrites (output_dir : String) (fold : ℕ) (r : FoldResult) : List FileWrite :=
  [{ path := output_dir ++ "/confusion_matrix_fold_" ++ toString (fold + 1) ++ ".png",
     content := FileContent.png (plot_confusion_matrix r.confusion_matrix
       ["Benign", "Malware"] false
       ("Confusion Matrix - Fold " ++ toString (fold + 1))) },
   { path := output_dir ++ "/confusion_matrix_norm_fold_" ++ toString (fold + 1) ++ ".png",
     content := FileContent.png (plot_confusion_matrix r.confusion_matrix
       ["Benign", "Malware"] true
       ("Normalized Confusion Matrix - Fold " ++ toString (fold + 1))) }]

/-- Embedding of generate_html_report (generate_report.py lines 30-175) with
the loop for fold in range(5) unrolled.  Each iteration subscripts
results[fold_fold] before writing that fold's two PNGs, so a missing key
raises KeyError there, leaving exactly the PNGs of the earlier folds written.
After the loop, the overall-metrics loop re-reads the same five keys (all
present once the loop finished), the template is rendered and the HTML file is
written as output_dir/svm_results_report.html.  The dictionary is never
mutated, so the single read per fold below is equivalent to the repeated reads
in the source. -/
def generate_html_report (sqrtA : ℚ → ℚ) (results : ResultsDict)
    (output_dir : String) : RunResult :=
  match dictGet results "fold_0" with
  | none => ⟨[], some (PyExc.keyError "fold_0")⟩
  | some r0 =>
    match dictGet results "fold_1" with
    | none => ⟨foldPngWrites output_dir 0 r0, some (PyExc.keyError "fold_1")⟩
    | some r1 =>
      match dictGet results "fold_2" with
      | none => ⟨foldPngWrites output_dir 0 r0 ++ foldPngWrites output_dir 1 r1,
                 some (PyExc.keyError "fold_2")⟩
      | some r2 =>
        match dictGet results "fold_3" with
        | none => ⟨foldPngWrites output_dir 0 r0 ++ foldPngWrites output_dir 1 r1
                     ++ foldPngWrites output_dir 2 r2,
                   some (PyExc.keyError "fold_3")⟩
        | some r3 =>
          match dictGet results "fold_4" with
          | none => ⟨foldPngWrites output_dir 0 r0 ++ foldPngWrites output_dir 1 r1
                       ++ foldPngWrites output_dir 2 r2 ++ foldPngWrites output_dir 3 r3,
                     some (PyExc.keyError "fold_4")⟩
          | some r4 =>
            ⟨foldPngWrites output_dir 0 r0 ++ foldPngWrites output_dir 1 r1
               ++ foldPngWrites output_dir 2 r2 ++ foldPngWrites output_dir 3 r3
               ++ foldPngWrites output_dir 4 r4
               ++ [{ path := output_dir ++ "/svm_results_report.html",
                     content := FileContent.htmlDoc (renderChunks sqrtA r0 r1 r2 r3 r4) }],
             none⟩

/-! ### generate_report.py: calculate_metrics and its sklearn backends

calculate_metrics (generate_report.py lines 177-196) is glue over sklearn
metric functions whose code is not part of this repository; the backends below
are modelled from the spec.  True and predicted labels are binary (0 or 1,
1 the positive class, matching the Benign/Malware labels of the report), and
scores are exact rationals. -/

/-- Number of samples with true label i and predicted label j. -/
def pairCount (y_true y_pred : List ℕ) (i j : ℕ) : ℕ :=
  ((y_true.zip y_pred).filter (fun p => p.1 == i && p.2 == j)).length

/-- True positives of y_pred against y_true. -/
def tpCount (y_true y_pred : List ℕ) : ℕ := pairCount y_true y_pred 1 1

/-- False positives of y_pred against y_true. -/
def fpCount (y_true y_pred : List ℕ) : ℕ := pairCount y_true y_pred 0 1

/-- False negatives of y_pred against y_true. -/
def fnCount (y_true y_pred : List ℕ) : ℕ := pairCount y_true y_pred 1 0

/-- Modelled from the spec: sklearn.metrics.confusion_matrix (not in this
repository) on binary labels returns the 2x2 matrix whose entry at row i,
column j counts samples with true label i and predicted label j. -/
def confusion_matrix (y_true y_pred : List ℕ) : List (List ℕ) :=
  [[pairCount y_true y_pred 0 0, pairCount y_true y_pred 0 1],
   [pairCount y_true y_pred 1 0, pairCount y_true y_pred 1 1]]

/-- Modelled from the spec: sklearn.metrics.accuracy_score (not in this
repository) returns the fraction of positions where y_pred equals y_true. -/
def accuracy_score (y_true y_pred : List ℕ) : ℚ :=
  (((y_true.zip y_pred).filter (fun p => p.1 == p.2)).length : ℚ) / (y_true.length : ℚ)

/-- Modelled from the spec: sklearn.metrics.precision_score (not in this
repository) returns TP / (TP + FP), and 0 when no sample is predicted
positive (its default zero_division behaviour). -/
def precision_score (y_true y_pred : List ℕ) : ℚ :=
  if tpCount y_true y_pred + fpCount y_true y_pred = 0 then 0
  else (tpCount y_true y_pred : ℚ) / ((tpCount y_true y_pred : ℚ) + (fpCount y_true y_pred : ℚ))

/-- Modelled from the spec: sklearn.metrics.recall_score (not in this
repository) returns TP / (TP + FN), and 0 when no sample is truly positive
(its default zero_division behaviour). -/
def recall_score (y_true y_pred : List ℕ) : ℚ :=
  if tpCount y_true y_pred + fnCount y_true y_pred = 0 then 0
  else (tpCount y_true y_pred : ℚ) / ((tpCount y_true y_pred : ℚ) + (fnCount y_true y_pred : ℚ))

/-- Modelled from the spec: sklearn.metrics.f1_score (not in this repository)
returns 2 TP / (2 TP + FP + FN), and 0 when that denominator vanishes. -/
def f1_score (y_true y_pred : List ℕ) : ℚ :=
  if 2 * tpCount y_true y_pred + fpCount y_true y_pred + fnCount y_true y_pred = 0 then 0
  else (2 * (tpCount y_true y_pred : ℚ))
    / (2 * (tpCount y_true y_pred : ℚ) + (fpCount y_true y_pred : ℚ) + (fnCount y_true y_pred : ℚ))

/-- Scores of the positively labelled samples. -/
def posScores (y_true : List ℕ) (y_prob : List ℚ) : List ℚ :=
  ((y_true.zip y_prob).filter (fun p => p.1 == 1)).map (fun p => p.2)

/-- Scores of the negatively labelled samples. -/
def negScores (y_true : List ℕ) (y_prob : List ℚ) : List ℚ :=
  ((y_true.zip y_prob).filter (fun p => p.1 == 0)).map (fun p => p.2)

/-- Modelled from the spec: sklearn.metrics.roc_auc_score (not in this
repository) returns the area under the ROC curve of y_prob against y_true,
which for binary labels is the probability that a uniformly random positive
sample is scored above a uniformly random negative one, ties counting half. -/
def roc_auc_score (y_true : List ℕ) (y_prob : List ℚ) : ℚ :=
  let pos := posScores y_true y_prob
  let neg := negScores y_true y_prob
  ((pos.flatMap (fun a => neg.map (fun b =>
      if b < a then (1 : ℚ) else if a = b then 1 / 2 else 0))).sum)
    / ((pos.length : ℚ) * (neg.length : ℚ))

/-- The dictionary returned by calculate_metrics, one field per key. -/
structure Metrics where
  confusion_matrix : List (List ℕ)
  accuracy : ℚ
  precision : ℚ
  «recall» : ℚ
  f1 : ℚ
  auc : ℚ
deriving DecidableEq, Repr

/-- Embedding of calculate_metrics (generate_report.py lines 177-196): the six
keys confusion_matrix, accuracy, precision, recall, f1 and auc, the first five
computed from y_true and y_pred and auc computed from y_true and y_prob. -/
def calculate_metrics (y_true y_pred : List ℕ) (y_prob : List ℚ) : Metrics :=
  { confusion_matrix := confusion_matrix y_true y_pred,
    accuracy := accuracy_score y_true y_pred,
    precision := precision_score y_true y_pred,
    «recall» := recall_score y_true y_pred,
    f1 := f1_score y_true y_pred,
    auc := roc_auc_score y_true y_prob }

/-- Whether a file write saved a matplotlib figure. -/
def isPngWrite (w : FileWrite) : Bool :=
  match w.content with
  | FileContent.png _ => true
  | _ => false

/-- Whether a file write saved the rendered HTML document. -/
def isHtmlWrite (w : FileWrite) : Bool :=
  match w.content with
  | FileContent.htmlDoc _ => true
  | _ => false

/-- The example fold record of the script's main block (generate_report.py
lines 198-211): confusion matrix [[100, 20], [10, 100]] and metric values
0.85, 0.83, 0.88, 0.85, 0.92. -/
def exampleFoldResult : FoldResult :=
  { confusion_matrix := [[100, 20], [10, 100]], accuracy := 0.85,
    precision := 0.83, «recall» := 0.88, f1 := 0.85, auc := 0.92 }

/-- The example results dictionary of the script's main block: the example
record under each of the five fold keys. -/
def exampleResults : ResultsDict :=
  [("fold_0", exampleFoldResult), ("fold_1", exampleFoldResult),
   ("fold_2", exampleFoldResult), ("fold_3", exampleFoldResult),
   ("fold_4", exampleFoldResult)]

/-- The example dictionary extended with a key the report never reads. -/
def exampleResultsExtra : ResultsDict :=
  exampleResults ++ [("extra", exampleFoldResult)]

/-- Reference count for claim C5: the number of positions where y_true and
y_pred agree, written as a sum over paired positions. -/
def refMatchCount (y_true y_pred : List ℕ) : ℕ :=
  (List.zipWith (fun a b => if a = b then (1 : ℕ) else 0) y_true y_pred).sum

/-! ## Helper lemmas -/

/-- Freezing preserves the number of layers. -/
theorem freezeAllButLast_length : ∀ l : List Bool, (freezeAllButLast l).length = l.length
  | [] => rfl
  | [_] => rfl
  | _ :: b :: rest => by
    show (false :: freezeAllButLast (b :: rest)).length = _
    simp [freezeAllButLast_length (b :: rest)]

/-- Every layer before the last is non-trainable after freezing. -/
theorem freezeAllButLast_get? : ∀ (l : List Bool) (i : ℕ), i + 1 < l.length →
    (freezeAllButLast l).get? i = some false
  | [], _, h => by simp at h
  | [_], _, h => by simp at h
  | _ :: _ :: _, 0, _ => rfl
  | _ :: b :: rest, i + 1, h => by
    show (false :: freezeAllButLast (b :: rest)).get? (i + 1) = some false
    rw [List.get?_cons_succ]
    exact freezeAllButLast_get? (b :: rest) i (by simpa using h)

/-- Freezing leaves the last layer's flag unchanged. -/
theorem freezeAllButLast_getLast? :
    ∀ l : List Bool, (freezeAllButLast l).getLast? = l.getLast?
  | [] => rfl
  | [_] => rfl
  | a :: b :: rest => by
    obtain ⟨x, xs, hx⟩ : ∃ x xs, freezeAllButLast (b :: rest) = x :: xs := by
      cases rest with
      | nil => exact ⟨b, [], rfl⟩
      | cons c rs => exact ⟨false, freezeAllButLast (c :: rs), rfl⟩
    show (false :: freezeAllButLast (b :: rest)).getLast? = (a :: b :: rest).getLast?
    rw [List.getLast?_cons_cons, hx, List.getLast?_cons_cons, ← hx,
      freezeAllButLast_getLast? (b :: rest)]

/-- Sum of a list divided elementwise by a constant. -/
theorem sum_map_div (l : List ℚ) (c : ℚ) : (l.map (fun x => x / c)).sum = l.sum / c := by
  induction l with
  | nil => simp
  | cons a t ih => simp [ih, add_div]

/-- Filtering a flattened replication multiplies the filtered length. -/
theorem filter_flatten_replicate (p : LayerDesc → Bool) (k : ℕ) (l : List LayerDesc) :
    ((List.flatten (List.replicate k l)).filter p).length = k * (l.filter p).length := by
  induction k with
  | zero => simp
  | succ m ih =>
    simp [List.replicate_succ, List.filter_append, ih, Nat.succ_mul, Nat.add_comm]

/-- Conv/dense layers per residual block: two, plus the projection conv when
the block downsamples. -/
theorem weighted_block_count (ch : ℕ) (inc : Bool) :
    ((residual_block_layers ch inc).filter isWeighted).length = if inc then 3 else 2 := by
  cases inc <;> simp [residual_block_layers, isWeighted]

/-- Main-path weighted layers per residual block: always two. -/
theorem mainpath_block_count (ch : ℕ) (inc : Bool) :
    ((residual_block_layers ch inc).filter isMainPathWeighted).length = 2 := by
  cases inc <;> simp [residual_block_layers, isMainPathWeighted]

/-- Add merges per residual block: exactly one. -/
theorem addmerge_block_count (ch : ℕ) (inc : Bool) :
    ((residual_block_layers ch inc).filter isAddMerge).length = 1 := by
  cases inc <;> simp [residual_block_layers, isAddMerge]

/-- Reassociation of a path built from a directory and three literal pieces. -/
theorem append_merge (d a b c e : String) (h : a ++ (b ++ c) = e) :
    d ++ a ++ b ++ c = d ++ e := by
  rw [String.append_assoc, String.append_assoc, h]

/-- A chunk of the rendered document occurs verbatim in the joined text. -/
theorem mem_joinChunks_split (x : String) :
    ∀ l : List String, x ∈ l → ∃ s t : String, joinChunks l = s ++ x ++ t
  | [], h => absurd h (List.not_mem_nil x)
  | a :: rest, h => by
    rcases List.mem_cons.1 h with h1 | h2
    · subst h1
      exact ⟨"", joinChunks rest, by simp [joinChunks, String.append_assoc]⟩
    · obtain ⟨s, t, hst⟩ := mem_joinChunks_split x rest h2
      exact ⟨a ++ s, t, by simp [joinChunks, hst, String.append_assoc]⟩

/-- The pair filter of pairCount agrees with counting the pair in the zip. -/
theorem pairCount_eq_count (yt yp : List ℕ) (i j : ℕ) :
    pairCount yt yp i j = (yt.zip yp).count (i, j) := by
  rw [pairCount, List.count, List.countP_eq_length_filter]
  congr 1

/-- The equality filter of accuracy_score counts the agreeing positions. -/
theorem filter_eq_refMatchCount : ∀ yt yp : List ℕ,
    ((yt.zip yp).filter (fun p => p.1 == p.2)).length = refMatchCount yt yp
  | [], _ => by simp [refMatchCount]
  | _ :: _, [] => by simp [refMatchCount]
  | a :: yt, b :: yp => by
    have ih := filter_eq_refMatchCount yt yp
    by_cases hab : a = b
    · subst hab
      simp [List.zip_cons_cons, List.filter_cons, refMatchCount,
        List.zipWith_cons_cons] at ih ⊢
      omega
    · simp [List.zip_cons_cons, List.filter_cons, refMatchCount,
        List.zipWith_cons_cons, beq_iff_eq, hab] at ih ⊢
      omega

/-! ## Claims -/

/-- C7: the learning-rate schedule handed to the LearningRateScheduler callback
in ResNet.train is the pure piecewise function returning 0.1 for every epoch
below 80, 0.01 from 80 up to 150, and 0.001 from 150 on; it is monotonically
non-increasing in the epoch and its range is exactly the three values 0.1,
0.01 and 0.001, each attained. -/
theorem C7_scheduler_piecewise :
    Callback.learningRateScheduler scheduler ∈ trainCallbacks
    ∧ (∀ e : ℕ, e < 80 → scheduler e = 0.1)
    ∧ (∀ e : ℕ, 80 ≤ e → e < 150 → scheduler e = 0.01)
    ∧ (∀ e : ℕ, 150 ≤ e → scheduler e = 0.001)
    ∧ (∀ e₁ e₂ : ℕ, e₁ ≤ e₂ → scheduler e₂ ≤ scheduler e₁)
    ∧ (∀ e : ℕ, scheduler e = 0.1 ∨ scheduler e = 0.01 ∨ scheduler e = 0.001)
    ∧ scheduler 0 = 0.1 ∧ scheduler 80 = 0.01 ∧ scheduler 150 = 0.001 := by
  refine ⟨by simp [trainCallbacks], ?_, ?_, ?_, ?_, ?_, by norm_num [scheduler],
    by norm_num [scheduler], by norm_num [scheduler]⟩
  · intro e he; simp [scheduler, he]
  · intro e h1 h2
    rw [scheduler, if_neg (by omega), if_pos h2]
  · intro e h
    rw [scheduler, if_neg (by omega), if_neg (by omega)]
  · intro e₁ e₂ h
    unfold scheduler
    split_ifs <;> try norm_num
    all_goals omega
  · intro e
    unfold scheduler
    split_ifs <;> simp

/-- Concrete instantiation of C7_scheduler_piecewise. -/
theorem C7_scheduler_piecewise_witness :
    scheduler 79 = 0.1 ∧ scheduler 149 = 0.01 ∧ scheduler 200 = 0.001
    ∧ scheduler 150 ≤ scheduler 0
    ∧ (scheduler 7 = 0.1 ∨ scheduler 7 = 0.01 ∨ scheduler 7 = 0.001) :=
  ⟨C7_scheduler_piecewise.2.1 79 (by norm_num),
   C7_scheduler_piecewise.2.2.1 149 (by norm_num) (by norm_num),
   C7_scheduler_piecewise.2.2.2.1 200 (by norm_num),
   C7_scheduler_piecewise.2.2.2.2.1 0 150 (by norm_num),
   C7_scheduler_piecewise.2.2.2.2.2.1 7⟩

/-- C4: the weight-loading try/except in the ResNet constructor catches exactly
ImportError, ValueError and OSError, in which case it falls back to training a
new model; every other exception propagates out of the constructor, and with
load_weights false the handler is never entered at all. -/
theorem C4_load_exception_handling :
    (∀ (tl : Bool) (e : PyExc), caughtByLoadHandler e = true →
        resnetInit true tl (some e) = Except.ok InitOutcome.trainedFallback)
    ∧ (∀ (tl : Bool) (e : PyExc), caughtByLoadHandler e = false →
        resnetInit true tl (some e) = Except.error e)
    ∧ (∀ e : PyExc, caughtByLoadHandler e = true ↔
        (e = PyExc.importError ∨ e = PyExc.valueError ∨ e = PyExc.osError))
    ∧ (∀ (tl : Bool) (lr : Option PyExc),
        resnetInit false tl lr = Except.ok InitOutcome.builtOnly) := by
  refine ⟨?_, ?_, ?_, ?_⟩
  · intro tl e he; simp [resnetInit, he]
  · intro tl e he; simp [resnetInit, he]
  · intro e; cases e <;> simp [caughtByLoadHandler]
  · intro tl lr; simp [resnetInit]

/-- Concrete instantiation of C4_load_exception_handling. -/
theorem C4_load_exception_handling_witness :
    resnetInit true false (some PyExc.osError) = Except.ok InitOutcome.trainedFallback
    ∧ resnetInit true true (some (PyExc.other "RuntimeError"))
        = Except.error (PyExc.other "RuntimeError")
    ∧ resnetInit false true (some (PyExc.other "RuntimeError"))
        = Except.ok InitOutcome.builtOnly :=
  ⟨C4_load_exception_handling.1 false PyExc.osError rfl,
   C4_load_exception_handling.2.1 true (PyExc.other "RuntimeError") rfl,
   C4_load_exception_handling.2.2.2 true (some (PyExc.other "RuntimeError"))⟩

/-- C9: when weights load successfully and transfer_learning is true, the
constructor sets every layer but the last non-trainable, leaves the last
layer's flag unchanged (so an initially trainable head stays trainable) and
recompiles; in every other case no trainable flag is modified and no
recompilation happens. -/
theorem C9_transfer_freezing :
    (∀ layers : List Bool,
        (initTransferEffect true true layers).recompiled = true
        ∧ (initTransferEffect true true layers).trainable.length = layers.length
        ∧ (∀ i : ℕ, i + 1 < layers.length →
            (initTransferEffect true true layers).trainable.get? i = some false)
        ∧ (initTransferEffect true true layers).trainable.getLast? = layers.getLast?
        ∧ (layers.getLast? = some true →
            (initTransferEffect true true layers).trainable.getLast? = some true))
    ∧ (∀ (ls tl : Bool) (layers : List Bool), (ls && tl) = false →
        initTransferEffect ls tl layers = { trainable := layers, recompiled := false }) := by
  constructor
  · intro layers
    refine ⟨rfl, ?_, ?_, ?_, ?_⟩
    · simp [initTransferEffect, freezeAllButLast_length]
    · intro i hi
      simpa [initTransferEffect] using freezeAllButLast_get? layers i hi
    · simp [initTransferEffect, freezeAllButLast_getLast?]
    · intro h
      simpa [initTransferEffect, freezeAllButLast_getLast?] using h
  · intro ls tl layers h
    simp [initTransferEffect, h]

/-- Concrete instantiation of C9_transfer_freezing. -/
theorem C9_transfer_freezing_witness :
    (initTransferEffect true true [true, true, true]).trainable.get? 0 = some false
    ∧ (initTransferEffect true true [true, true, true]).trainable.getLast? = some true
    ∧ initTransferEffect false true [true, true, true]
        = { trainable := [true, true, true], recompiled := false } :=
  ⟨(C9_transfer_freezing.1 [true, true, true]).2.2.1 0 (by norm_num),
   (C9_transfer_freezing.1 [true, true, true]).2.2.2.2 rfl,
   C9_transfer_freezing.2 false true [true, true, true] rfl⟩

/-- C10: plot_confusion_matrix with normalize true divides each row by its own
sum with no guard: a row with positive sum normalizes to defined entries
summing to 1, and a row with zero sum (in particular an all-zero row) has
every normalized entry undefined; with normalize false the plotted matrix is
the input unchanged. -/
theorem C10_plot_normalization :
    (∀ (cm : List (List ℚ)) (classes : List String) (title : String),
        (plot_confusion_matrix cm classes false title).matrix
          = cm.map (fun row => row.map some))
    ∧ (∀ (cm : List (List ℚ)) (classes : List String) (title : String)
        (i : ℕ) (row : List ℚ), cm[i]? = some row → 0 < row.sum →
        (plot_confusion_matrix cm classes true title).matrix[i]?
            = some (row.map (fun x => some (x / row.sum)))
          ∧ (row.map (fun x => x / row.sum)).sum = 1)
    ∧ (∀ (cm : List (List ℚ)) (classes : List String) (title : String)
        (i : ℕ) (row : List ℚ), cm[i]? = some row → row.sum = 0 →
        (plot_confusion_matrix cm classes true title).matrix[i]?
          = some (row.map (fun _ => (none : Option ℚ)))) := by
  refine ⟨?_, ?_, ?_⟩
  · intro cm classes title
    simp [plot_confusion_matrix]
  · intro cm classes title i row hrow hpos
    have hne : row.sum ≠ 0 := ne_of_gt hpos
    constructor
    · simp [plot_confusion_matrix, rowNormalize, List.getElem?_map, hrow, hne]
    · rw [sum_map_div]
      exact div_self hne
  · intro cm classes title i row hrow hzero
    simp [plot_confusion_matrix, rowNormalize, List.getElem?_map, hrow, hzero]

/-- Concrete instantiation of C10_plot_normalization. -/
theorem C10_plot_normalization_witness :
    (plot_confusion_matrix [[100, 20], [10, 100]] ["Benign", "Malware"] false "t").matrix
      = [[some 100, some 20], [some 10, some 100]]
    ∧ (plot_confusion_matrix [[1, 3], [0, 0]] ["Benign", "Malware"] true "t").matrix[0]?
      = some [some (1 / 4), some (3 / 4)]
    ∧ (plot_confusion_matrix [[1, 3], [0, 0]] ["Benign", "Malware"] true "t").matrix[1]?
      = some [none, none] := by
  refine ⟨?_, ?_, ?_⟩
  · simpa using C10_plot_normalization.1 [[100, 20], [10, 100]] ["Benign", "Malware"] "t"
  · have h := (C10_plot_normalization.2.1 [[1, 3], [0, 0]] ["Benign", "Malware"] "t"
      0 [1, 3] rfl (by norm_num)).1
    rw [h]
    norm_num
  · have h := C10_plot_normalization.2.2 [[1, 3], [0, 0]] ["Benign", "Malware"] "t"
      1 [0, 0] rfl (by norm_num)
    rw [h]
    norm_num

/-- C2: for any metric projection f and fold records, the value labelled Mean
(np.mean of the five per-fold values, as interpolated by the template) is
their arithmetic mean, and the radicand of np.std (default ddof = 0) is the
mean of squared deviations with divisor 5, so the value labelled Standard
Deviation is the population standard deviation of the same five values. -/
theorem C2_overall_mean_std (f : FoldResult → ℚ) (r0 r1 r2 r3 r4 : FoldResult) :
    np_mean (metricVals f r0 r1 r2 r3 r4) = (f r0 + f r1 + f r2 + f r3 + f r4) / 5
    ∧ np_var (metricVals f r0 r1 r2 r3 r4)
        = ((f r0 - (f r0 + f r1 + f r2 + f r3 + f r4) / 5) ^ 2
            + (f r1 - (f r0 + f r1 + f r2 + f r3 + f r4) / 5) ^ 2
            + (f r2 - (f r0 + f r1 + f r2 + f r3 + f r4) / 5) ^ 2
            + (f r3 - (f r0 + f r1 + f r2 + f r3 + f r4) / 5) ^ 2
            + (f r4 - (f r0 + f r1 + f r2 + f r3 + f r4) / 5) ^ 2) / 5
    ∧ Real.sqrt (np_var (metricVals f r0 r1 r2 r3 r4) : ℚ)
        = Real.sqrt ((((f r0 - (f r0 + f r1 + f r2 + f r3 + f r4) / 5) ^ 2
            + (f r1 - (f r0 + f r1 + f r2 + f r3 + f r4) / 5) ^ 2
            + (f r2 - (f r0 + f r1 + f r2 + f r3 + f r4) / 5) ^ 2
            + (f r3 - (f r0 + f r1 + f r2 + f r3 + f r4) / 5) ^ 2
            + (f r4 - (f r0 + f r1 + f r2 + f r3 + f r4) / 5) ^ 2) / 5 : ℚ)) := by
  have h1 : np_mean (metricVals f r0 r1 r2 r3 r4)
      = (f r0 + f r1 + f r2 + f r3 + f r4) / 5 := by
    simp [np_mean, metricVals]
    ring
  have h2 : np_var (metricVals f r0 r1 r2 r3 r4)
      = ((f r0 - (f r0 + f r1 + f r2 + f r3 + f r4) / 5) ^ 2
          + (f r1 - (f r0 + f r1 + f r2 + f r3 + f r4) / 5) ^ 2
          + (f r2 - (f r0 + f r1 + f r2 + f r3 + f r4) / 5) ^ 2
          + (f r3 - (f r0 + f r1 + f r2 + f r3 + f r4) / 5) ^ 2
          + (f r4 - (f r0 + f r1 + f r2 + f r3 + f r4) / 5) ^ 2) / 5 := by
    rw [np_var, h1]
    simp [metricVals]
    ring
  exact ⟨h1, h2, by rw [h2]⟩

/-- C6 counterexample: at the default stack_n = 5 (and classes_num = 10) the
network contains 34 weighted (conv/dense) layers, not 6 * 5 + 2 = 32: the two
downsampling blocks each add a 1x1 projection convolution on the shortcut. -/
theorem C6_weighted_count_counterexample :
    weightedLayerCount (residual_network_layers 10 5) = 34 ∧ (34 : ℕ) ≠ 6 * 5 + 2 :=
  ⟨by decide, by decide⟩

/-- C6 (amended): residual_network builds a fixed topology depending only on
classes_num and stack_n: an initial 16-filter 3x3 convolution, exactly
3 * stack_n residual blocks (stack_n plain blocks at 16 channels, a stride-2
downsampling block plus stack_n - 1 plain blocks at 32 channels, and the same
at 64 channels), then batch norm, ReLU, global average pooling and a softmax
dense layer with classes_num units.  It has 6 * stack_n + 2 weighted layers on
the main path (3x3 convolutions and the dense head; 32 for the default
stack_n = 5) and 6 * stack_n + 4 conv/dense layers in total, the extra two
being the 1x1 projection convolutions of the downsampling blocks. -/
theorem C6_residual_topology (c n : ℕ) (hn : 1 ≤ n) :
    addMergeCount (residual_network_layers c n) = 3 * n
    ∧ weightedLayerCount (residual_network_layers c n) = 6 * n + 4
    ∧ mainPathWeightedCount (residual_network_layers c n) = 6 * n + 2
    ∧ (residual_network_layers c n).head? = some (LayerDesc.conv2d 16 (3, 3) (1, 1))
    ∧ (∃ pre, residual_network_layers c n
        = pre ++ [LayerDesc.batchNorm, LayerDesc.activationRelu,
                  LayerDesc.globalAvgPool, LayerDesc.dense c "softmax"])
    ∧ (∀ ch, residual_block_layers ch true
        = [LayerDesc.batchNorm, LayerDesc.activationRelu,
           LayerDesc.conv2d ch (3, 3) (2, 2), LayerDesc.batchNorm,
           LayerDesc.activationRelu, LayerDesc.conv2d ch (3, 3) (1, 1),
           LayerDesc.conv2d ch (1, 1) (2, 2), LayerDesc.addL])
    ∧ (∀ ch, residual_block_layers ch false
        = [LayerDesc.batchNorm, LayerDesc.activationRelu,
           LayerDesc.conv2d ch (3, 3) (1, 1), LayerDesc.batchNorm,
           LayerDesc.activationRelu, LayerDesc.conv2d ch (3, 3) (1, 1),
           LayerDesc.addL]) := by
  refine ⟨?_, ?_, ?_, ?_, ⟨_, rfl⟩, fun ch => rfl, fun ch => rfl⟩
  · simp only [addMergeCount, residual_network_layers, List.filter_append,
      List.length_append, filter_flatten_replicate, addmerge_block_count]
    simp [isAddMerge, List.filter]
    omega
  · simp only [weightedLayerCount, residual_network_layers, List.filter_append,
      List.length_append, filter_flatten_replicate, weighted_block_count]
    simp [isWeighted, List.filter]
    omega
  · simp only [mainPathWeightedCount, residual_network_layers, List.filter_append,
      List.length_append, filter_flatten_replicate, mainpath_block_count]
    simp [isMainPathWeighted, List.filter]
    omega
  · simp [residual_network_layers]

/-- Concrete instantiation of C6_residual_topology. -/
theorem C6_residual_topology_witness :
    (1 : ℕ) ≤ 5 ∧ addMergeCount (residual_network_layers 10 5) = 3 * 5 :=
  ⟨by norm_num, (C6_residual_topology 10 5 (by norm_num)).1⟩

/-- C3: on a results dictionary holding all five fold keys, the report run
writes exactly the ten confusion-matrix PNGs confusion_matrix_fold_{n}.png and
confusion_matrix_norm_fold_{n}.png for n = 1..5, in fold order, followed by
the single HTML file, all inside output_dir, raising nothing; the writes are
ten figure saves, one HTML document and nothing else. -/
theorem C3_artifact_files (sqrtA : ℚ → ℚ) (results : ResultsDict) (dir : String)
    (r0 r1 r2 r3 r4 : FoldResult)
    (h0 : dictGet results "fold_0" = some r0)
    (h1 : dictGet results "fold_1" = some r1)
    (h2 : dictGet results "fold_2" = some r2)
    (h3 : dictGet results "fold_3" = some r3)
    (h4 : dictGet results "fold_4" = some r4) :
    (generate_html_report sqrtA results dir).writes.map (fun w => w.path)
      = [dir ++ "/confusion_matrix_fold_1.png",
         dir ++ "/confusion_matrix_norm_fold_1.png",
         dir ++ "/confusion_matrix_fold_2.png",
         dir ++ "/confusion_matrix_norm_fold_2.png",
         dir ++ "/confusion_matrix_fold_3.png",
         dir ++ "/confusion_matrix_norm_fold_3.png",
         dir ++ "/confusion_matrix_fold_4.png",
         dir ++ "/confusion_matrix_norm_fold_4.png",
         dir ++ "/confusion_matrix_fold_5.png",
         dir ++ "/confusion_matrix_norm_fold_5.png",
         dir ++ "/svm_results_report.html"]
    ∧ ((generate_html_report sqrtA results dir).writes.filter isPngWrite).length = 10
    ∧ ((generate_html_report sqrtA results dir).writes.filter isHtmlWrite).length = 1
    ∧ (generate_html_report sqrtA results dir).writes.length = 11
    ∧ (generate_html_report sqrtA results dir).raised = none := by
  simp only [generate_html_report, h0, h1, h2, h3, h4]
  refine ⟨?_, ?_, ?_, ?_, trivial⟩
  · simp only [foldPngWrites, List.map_append, List.map_cons, List.map_nil,
      List.cons_append, List.nil_append, List.cons.injEq]
    and_intros <;> first | trivial | exact append_merge dir _ _ _ _ rfl
  · simp [foldPngWrites, isPngWrite, isHtmlWrite, List.filter_append]
  · simp [foldPngWrites, isPngWrite, isHtmlWrite, List.filter_append]
  · simp [foldPngWrites]

/-- Concrete instantiation of C3_artifact_files on the example dictionary of
the script's main block. -/
theorem C3_artifact_files_witness :
    ((generate_html_report (fun q => q) exampleResults "SVM/results").writes.filter
        isPngWrite).length = 10
    ∧ ((generate_html_report (fun q => q) exampleResults "SVM/results").writes.filter
        isHtmlWrite).length = 1
    ∧ (generate_html_report (fun q => q) exampleResults "SVM/results").raised = none := by
  have h := C3_artifact_files (fun q => q) exampleResults "SVM/results"
    exampleFoldResult exampleFoldResult exampleFoldResult exampleFoldResult
    exampleFoldResult rfl rfl rfl rfl rfl
  exact ⟨h.2.1, h.2.2.1, h.2.2.2.2⟩

/-- C8: generate_html_report hard-codes five folds.  Its outcome depends only
on the values of the keys fold_0 .. fold_4 (any other key is ignored), and
when the first missing key among them is fold_j the run raises KeyError for
that key with exactly the PNGs of the folds before j already written. -/
theorem C8_five_folds (sqrtA : ℚ → ℚ) (dir : String) :
    (∀ d1 d2 : ResultsDict,
        (∀ k ∈ ["fold_0", "fold_1", "fold_2", "fold_3", "fold_4"],
            dictGet d1 k = dictGet d2 k) →
        generate_html_report sqrtA d1 dir = generate_html_report sqrtA d2 dir)
    ∧ (∀ (d : ResultsDict) (j : ℕ), j < 5 →
        dictGet d ("fold_" ++ toString j) = none →
        (∀ i : ℕ, i < j → (dictGet d ("fold_" ++ toString i)).isSome) →
        (generate_html_report sqrtA d dir).raised
            = some (PyExc.keyError ("fold_" ++ toString j))
          ∧ (generate_html_report sqrtA d dir).writes.map (fun w => w.path)
              = (List.range j).flatMap (fun i =>
                  [dir ++ "/confusion_matrix_fold_" ++ toString (i + 1) ++ ".png",
                   dir ++ "/confusion_matrix_norm_fold_" ++ toString (i + 1) ++ ".png"])) := by
  constructor
  · intro d1 d2 h
    have e0 := h "fold_0" (by simp)
    have e1 := h "fold_1" (by simp)
    have e2 := h "fold_2" (by simp)
    have e3 := h "fold_3" (by simp)
    have e4 := h "fold_4" (by simp)
    simp only [generate_html_report, e0, e1, e2, e3, e4]
  · intro d j hj hmiss hpres
    interval_cases j
    · replace hmiss : dictGet d "fold_0" = none := hmiss
      simp [generate_html_report, hmiss]
      rfl
    · obtain ⟨r0, g0⟩ := Option.isSome_iff_exists.1 (hpres 0 (by norm_num))
      replace g0 : dictGet d "fold_0" = some r0 := g0
      replace hmiss : dictGet d "fold_1" = none := hmiss
      simp [generate_html_report, g0, hmiss, foldPngWrites, List.range_succ]
      rfl
    · obtain ⟨r0, g0⟩ := Option.isSome_iff_exists.1 (hpres 0 (by norm_num))
      obtain ⟨r1, g1⟩ := Option.isSome_iff_exists.1 (hpres 1 (by norm_num))
      replace g0 : dictGet d "fold_0" = some r0 := g0
      replace g1 : dictGet d "fold_1" = some r1 := g1
      replace hmiss : dictGet d "fold_2" = none := hmiss
      simp [generate_html_report, g0, g1, hmiss, foldPngWrites, List.range_succ]
      rfl
    · obtain ⟨r0, g0⟩ := Option.isSome_iff_exists.1 (hpres 0 (by norm_num))
      obtain ⟨r1, g1⟩ := Option.isSome_iff_exists.1 (hpres 1 (by norm_num))
      obtain ⟨r2, g2⟩ := Option.isSome_iff_exists.1 (hpres 2 (by norm_num))
      replace g0 : dictGet d "fold_0" = some r0 := g0
      replace g1 : dictGet d "fold_1" = some r1 := g1
      replace g2 : dictGet d "fold_2" = some r2 := g2
      replace hmiss : dictGet d "fold_3" = none := hmiss
      simp [generate_html_report, g0, g1, g2, hmiss, foldPngWrites, List.range_succ]
      rfl
    · obtain ⟨r0, g0⟩ := Option.isSome_iff_exists.1 (hpres 0 (by norm_num))
      obtain ⟨r1, g1⟩ := Option.isSome_iff_exists.1 (hpres 1 (by norm_num))
      obtain ⟨r2, g2⟩ := Option.isSome_iff_exists.1 (hpres 2 (by norm_num))
      obtain ⟨r3, g3⟩ := Option.isSome_iff_exists.1 (hpres 3 (by norm_num))
      replace g0 : dictGet d "fold_0" = some r0 := g0
      replace g1 : dictGet d "fold_1" = some r1 := g1
      replace g2 : dictGet d "fold_2" = some r2 := g2
      replace g3 : dictGet d "fold_3" = some r3 := g3
      replace hmiss : dictGet d "fold_4" = none := hmiss
      simp [generate_html_report, g0, g1, g2, g3, hmiss, foldPngWrites, List.range_succ]
      rfl

/-- Concrete instantiation of C8_five_folds: an added unread key does not
change the run, and a dictionary holding only fold_0 stops with KeyError on
fold_1 after writing the two fold-1 PNGs. -/
theorem C8_five_folds_witness :
    generate_html_report (fun q => q) exampleResultsExtra "SVM/results"
        = generate_html_report (fun q => q) exampleResults "SVM/results"
    ∧ (generate_html_report (fun q => q) [("fold_0", exampleFoldResult)]
          "SVM/results").raised = some (PyExc.keyError ("fold_" ++ toString 1)) := by
  constructor
  · exact (C8_five_folds (fun q => q) "SVM/results").1 exampleResultsExtra exampleResults
      (by intro k hk; fin_cases hk <;> rfl)
  · exact ((C8_five_folds (fun q => q) "SVM/results").2 [("fold_0", exampleFoldResult)]
      1 (by norm_num) rfl
      (by intro i hi; interval_cases i; rfl)).1

/-- C1: on a results dictionary holding records under all five fold keys, the
run writes the HTML file output_dir/svm_results_report.html, whose text (the
joined rendered chunks) contains, for every fold, the %.4f rendering of that
fold's accuracy, precision, recall, F1 and AUC, and, for each of the five
metrics, the %.4f renderings of the overall Mean (np.mean of the five values)
and Standard Deviation (np.std of them, the sqrtA image of np_var). -/
theorem C1_html_report (sqrtA : ℚ → ℚ) (results : ResultsDict) (dir : String)
    (r0 r1 r2 r3 r4 : FoldResult)
    (h0 : dictGet results "fold_0" = some r0)
    (h1 : dictGet results "fold_1" = some r1)
    (h2 : dictGet results "fold_2" = some r2)
    (h3 : dictGet results "fold_3" = some r3)
    (h4 : dictGet results "fold_4" = some r4) :
    ∃ w ∈ (generate_html_report sqrtA results dir).writes,
      w.path = dir ++ "/svm_results_report.html"
      ∧ w.content = FileContent.htmlDoc (renderChunks sqrtA r0 r1 r2 r3 r4)
      ∧ (∀ r ∈ [r0, r1, r2, r3, r4],
          ∀ v ∈ [r.accuracy, r.precision, r.«recall», r.f1, r.auc],
          ∃ s t : String,
            joinChunks (renderChunks sqrtA r0 r1 r2 r3 r4) = s ++ fmt4 v ++ t)
      ∧ (∀ f ∈ [fun r : FoldResult => r.accuracy, fun r => r.precision,
                 fun r => r.«recall», fun r => r.f1, fun r => r.auc],
          (∃ s t : String, joinChunks (renderChunks sqrtA r0 r1 r2 r3 r4)
              = s ++ fmt4 (np_mean (metricVals f r0 r1 r2 r3 r4)) ++ t)
          ∧ (∃ s t : String, joinChunks (renderChunks sqrtA r0 r1 r2 r3 r4)
              = s ++ fmt4 (sqrtA (np_var (metricVals f r0 r1 r2 r3 r4))) ++ t)) := by
  refine ⟨{ path := dir ++ "/svm_results_report.html",
            content := FileContent.htmlDoc (renderChunks sqrtA r0 r1 r2 r3 r4) },
          ?_, rfl, rfl, ?_, ?_⟩
  · simp [generate_html_report, h0, h1, h2, h3, h4]
  · intro r hr v hv
    simp only [List.mem_cons, List.not_mem_nil, or_false] at hr hv
    apply mem_joinChunks_split
    rcases hr with rfl | rfl | rfl | rfl | rfl <;>
      rcases hv with rfl | rfl | rfl | rfl | rfl <;>
      simp [renderChunks, foldRow, overallRow]
  · intro f hf
    simp only [List.mem_cons, List.not_mem_nil, or_false] at hf
    rcases hf with rfl | rfl | rfl | rfl | rfl <;>
      exact ⟨mem_joinChunks_split _ _ (by simp [renderChunks, foldRow, overallRow]),
             mem_joinChunks_split _ _ (by simp [renderChunks, foldRow, overallRow])⟩

/-- Concrete instantiation of C1_html_report on the example dictionary of the
script's main block. -/
theorem C1_html_report_witness :
    ∃ w ∈ (generate_html_report (fun q => q) exampleResults "SVM/results").writes,
      w.path = "SVM/results" ++ "/svm_results_report.html" := by
  obtain ⟨w, hw, hpath, -⟩ := C1_html_report (fun q => q) exampleResults "SVM/results"
    exampleFoldResult exampleFoldResult exampleFoldResult exampleFoldResult
    exampleFoldResult rfl rfl rfl rfl rfl
  exact ⟨w, hw, hpath⟩

/-- C5: calculate_metrics returns exactly the six keys confusion_matrix,
accuracy, precision, recall, f1 and auc; the confusion matrix entry (i, j)
counts pairs of true label i and predicted label j, accuracy is the fraction
of agreeing positions, precision is TP / (TP + FP), recall is TP / (TP + FN),
f1 is the harmonic mean of precision and recall, and auc is the area under
the ROC curve of y_prob against y_true. -/
theorem C5_calculate_metrics (yt yp : List ℕ) (yprob : List ℚ)
    (hpf : 0 < tpCount yt yp + fpCount yt yp)
    (hpn : 0 < tpCount yt yp + fnCount yt yp) :
    calculate_metrics yt yp yprob
        = { confusion_matrix := confusion_matrix yt yp,
            accuracy := accuracy_score yt yp,
            precision := precision_score yt yp,
            «recall» := recall_score yt yp,
            f1 := f1_score yt yp,
            auc := roc_auc_score yt yprob }
    ∧ (∀ i j : ℕ, i < 2 → j < 2 →
        ((confusion_matrix yt yp).getD i []).getD j 0 = (yt.zip yp).count (i, j))
    ∧ accuracy_score yt yp = (refMatchCount yt yp : ℚ) / (yt.length : ℚ)
    ∧ precision_score yt yp
        = (tpCount yt yp : ℚ) / ((tpCount yt yp : ℚ) + (fpCount yt yp : ℚ))
    ∧ recall_score yt yp
        = (tpCount yt yp : ℚ) / ((tpCount yt yp : ℚ) + (fnCount yt yp : ℚ))
    ∧ f1_score yt yp
        = 2 * precision_score yt yp * recall_score yt yp
            / (precision_score yt yp + recall_score yt yp)
    ∧ (calculate_metrics yt yp yprob).auc = roc_auc_score yt yprob := by
  refine ⟨rfl, ?_, ?_, ?_, ?_, ?_, rfl⟩
  · intro i j hi hj
    interval_cases i <;> interval_cases j <;>
      simp [confusion_matrix, pairCount_eq_count]
  · rw [accuracy_score, filter_eq_refMatchCount]
  · rw [precision_score, if_neg (by omega)]
  · rw [recall_score, if_neg (by omega)]
  · rcases Nat.eq_zero_or_pos (tpCount yt yp) with h0 | hpos
    · have hfp : 0 < fpCount yt yp := by omega
      have hfn : 0 < fnCount yt yp := by omega
      rw [f1_score, precision_score, recall_score,
        if_neg (by omega), if_neg (by omega), if_neg (by omega), h0]
      norm_num
    · have ha : (0 : ℚ) < (tpCount yt yp : ℚ) := by exact_mod_cast hpos
      have hab : (0 : ℚ) < (tpCount yt yp : ℚ) + (fpCount yt yp : ℚ) := by positivity
      have hac : (0 : ℚ) < (tpCount yt yp : ℚ) + (fnCount yt yp : ℚ) := by positivity
      have hP : (0 : ℚ)
          < (tpCount yt yp : ℚ) / ((tpCount yt yp : ℚ) + (fpCount yt yp : ℚ)) :=
        div_pos ha hab
      have hR : (0 : ℚ)
          < (tpCount yt yp : ℚ) / ((tpCount yt yp : ℚ) + (fnCount yt yp : ℚ)) :=
        div_pos ha hac
      rw [f1_score, precision_score, recall_score,
        if_neg (by omega), if_neg (by omega), if_neg (by omega)]
      have h2abc : (0 : ℚ)
          < 2 * (tpCount yt yp : ℚ) + (fpCount yt yp : ℚ) + (fnCount yt yp : ℚ) := by
        positivity
      rw [eq_div_iff (ne_of_gt (add_pos hP hR))]
      rw [div_add_div _ _ (ne_of_gt hab) (ne_of_gt hac)]
      field_simp
      ring

/-- Concrete instantiation of C5_calculate_metrics. -/
theorem C5_calculate_metrics_witness :
    0 < tpCount [1, 0, 1, 0] [1, 1, 0, 0] + fpCount [1, 0, 1, 0] [1, 1, 0, 0]
    ∧ (calculate_metrics [1, 0, 1, 0] [1, 1, 0, 0]
        [9 / 10, 6 / 10, 4 / 10, 1 / 10]).precision
      = (tpCount [1, 0, 1, 0] [1, 1, 0, 0] : ℚ)
          / ((tpCount [1, 0, 1, 0] [1, 1, 0, 0] : ℚ)
              + (fpCount [1, 0, 1, 0] [1, 1, 0, 0] : ℚ)) :=
  ⟨by decide,
   (C5_calculate_metrics [1, 0, 1, 0] [1, 1, 0, 0] [9 / 10, 6 / 10, 4 / 10, 1 / 10]
      (by decide) (by decide)).2.2.2.1⟩

end NNTL
